import Mathlib

/-
A shallow embedding of the LC-3 simulator core in `source/LC3.c`
(`setcc` and `execute_next`), together with theorems checking the
natural-language specification against it.

Modelling conventions:
* `uint16_t` values are `Nat`s; every store into a 16-bit location applies
  `% 65536`, mirroring the C conversion on assignment.
* C `int` arithmetic on promoted operands (`uint16_t + int16_t`) is `Int`
  arithmetic; an `Int`-valued index into the 65536-entry `memory` array is
  range-checked, and an out-of-range index is the explicit error `Err.memOOB`
  (the C code would access the array out of bounds there).  Likewise
  register-file indexing is range-checked against 8 with `Err.regOOB`.
* The curses console is modelled by an input character (the value `wgetch`
  returns) and a trace of console events (`wtimeout` mode switches,
  `wgetch` calls, `wechochar` output).
-/

set_option maxHeartbeats 1000000
set_option maxRecDepth 100000

namespace LC3V

/-- Events the simulator performs on the curses console window. -/
inductive ConsoleEv where
  | setBlocking (b : Bool)
  | readCh
  | writeCh (c : Nat)
deriving DecidableEq, Repr

/-- Out-of-range branches of the embedding: an `Int`-typed memory index
outside `[0, 65536)` (in C this is an out-of-bounds array access, undefined
behaviour), or a register index outside `[0, 8)`. -/
inductive Err where
  | memOOB
  | regOOB
deriving DecidableEq, Repr

/-- Modelled from the spec: the fields of `struct LC3` (its declaration is in
`LC3.h`, which is not in `src/`); the spec gives the register file (8 entries),
`PC`, `IR`, the condition code, the halt flag, and the 65536-entry memory of
16-bit cells.  `CC` is the C `unsigned char` holding the character code of
one of N (78), Z (90), P (80). -/
structure LC3 where
  registers : Nat → Nat
  PC : Nat
  IR : Nat
  CC : Nat
  isHalted : Bool
  memory : Nat → Nat

def KBSR : Nat := 0xFE00
def KBDR : Nat := 0xFE02
def DSR : Nat := 0xFE04
def DDR : Nat := 0xFE06
def MCR : Nat := 0xFFFE

/-- Error-propagating sequencing of two fallible computations. -/
def bindE {α β : Type} (x : Except Err α) (f : α → Except Err β) : Except Err β :=
  match x with
  | Except.error e => Except.error e
  | Except.ok a => f a

/-- Conversion of an `Int` to `uint16_t` on assignment. -/
def u16 (v : Int) : Nat := (v % 65536).toNat

/-- Read of `memory[i].value` where (after C integer promotion) `i` is an
`int`; an index outside `[0, 65536)` is the out-of-range branch (the bound
is checked on `i.toNat`, which is equivalent given `0 ≤ i`). -/
def memRead (m : Nat → Nat) (i : Int) : Except Err Nat :=
  if 0 ≤ i ∧ i.toNat < 65536 then Except.ok (m i.toNat) else Except.error Err.memOOB

/-- Write of `memory[i].value = v`, with the same range check. -/
def memWrite (m : Nat → Nat) (i : Int) (v : Int) : Except Err (Nat → Nat) :=
  if 0 ≤ i ∧ i.toNat < 65536 then Except.ok (fun j => if j = i.toNat then u16 v else m j)
  else Except.error Err.memOOB

/-- Read of `registers[i]` with the register-file range check. -/
def regRead (r : Nat → Nat) (i : Nat) : Except Err Nat :=
  if i < 8 then Except.ok (r i) else Except.error Err.regOOB

/-- Write of `registers[i] = v` (a `uint16_t` store). -/
def regWrite (r : Nat → Nat) (i : Nat) (v : Int) : Except Err (Nat → Nat) :=
  if i < 8 then Except.ok (fun j => if j = i then u16 v else r j)
  else Except.error Err.regOOB

/-- The C cast `(int16_t) x` of a nonnegative value: reduce mod 2^16 and
re-interpret in twos complement. -/
def toInt16 (x : Nat) : Int :=
  if x % 65536 < 32768 then ((x % 65536 : Nat) : Int) else ((x % 65536 : Nat) : Int) - 65536

/-- Arithmetic right shift of a C signed value by `k` (floor division). -/
def sra (v : Int) (k : Nat) : Int := Int.fdiv v (2 ^ k)

/-- Source line `PCoffset = ((int16_t) ((IR & 0x1ff) << 7)) >> 7`. -/
def sext9 (ir : Nat) : Int := sra (toInt16 ((ir &&& 0x1ff) <<< 7)) 7

/-- Source line `PCoffset = ((int16_t) ((IR & 0x3f) << 9)) >> 9`. -/
def sext6 (ir : Nat) : Int := sra (toInt16 ((ir &&& 0x3f) <<< 9)) 9

/-- Source line `PCoffset = ((int16_t) ((IR & 0x7ff) << 5)) >> 5`. -/
def sext11 (ir : Nat) : Int := sra (toInt16 ((ir &&& 0x7ff) <<< 5)) 5

/-- What the spec words describe for sign extension of a `w`-bit field
(used to compare the source shift-based computation against the spec). -/
def specSext (w : Nat) (f : Nat) : Int :=
  if f < 2 ^ (w - 1) then (f : Nat) else (f : Int) - 2 ^ w

/-- Source `setcc`: Z (90) if the 16-bit value is 0, N (78) if it is negative
as an `int16_t`, P (80) otherwise. -/
def setcc (v : Nat) : Nat :=
  if v = 0 then 90 else if toInt16 v < 0 then 78 else 80

/-- Write a destination register and then run `setcc` on the value the
register now holds, as every CC-updating instruction in the source does. -/
def writeReg_setcc (r : Nat → Nat) (d : Nat) (v : Int) :
    Except Err ((Nat → Nat) × Nat) :=
  bindE (regWrite r d v) (fun r2 =>
    bindE (regRead r2 d) (fun stored =>
      Except.ok (r2, setcc stored)))

/-
The per-opcode cases of the `switch` in `execute_next`.  Each takes the
post-fetch state (PC already incremented, IR loaded) and returns the updated
state plus console events.  Modelled from the spec: the numeric opcode
values themselves come from `Enums.h`, which is not in `src/`; they are fixed
by the spec bit-exact examples (IR 0x1042 decodes as ADD, hence ADD = 1;
IR 0x5183 as AND, hence AND = 5) and by the spec requirement of binary
compatibility with the LC-3 instruction set: BR=0, ADD=1, LD=2, ST=3, JSR=4,
AND=5, LDR=6, STR=7, NOT=9, LDI=10, STI=11, JMP=12, LEA=14, TRAP=15;
8 and 13 are the two unimplemented values.
-/

/-- Case `TRAP`: `registers[7] = PC; PC = memory[IR & 0xff].value`. -/
def execTRAP (t : LC3) : Except Err (LC3 × List ConsoleEv) :=
  bindE (regWrite t.registers 7 (t.PC : Nat)) (fun r2 =>
    bindE (memRead t.memory ((t.IR &&& 0xff : Nat) : Int)) (fun v =>
      Except.ok ({ t with registers := r2, PC := v % 65536 }, [])))

/-- Case `LEA`: `*DR = PC + PCoffset; setcc`. -/
def execLEA (t : LC3) : Except Err (LC3 × List ConsoleEv) :=
  bindE (writeReg_setcc t.registers ((t.IR >>> 9) &&& 7) ((t.PC : Int) + sext9 t.IR))
    (fun p => Except.ok ({ t with registers := p.1, CC := p.2 }, []))

/-- Case `LDI`: if `memory[PC + PCoffset].value == KBDR` then a blocking
`wgetch` (wrapped in `wtimeout(-1)` / `wtimeout(0)`) is stored into `*DR`,
else `*DR = memory[memory[PC + PCoffset].value].value`; then `setcc`. -/
def execLDI (t : LC3) (input : Nat) : Except Err (LC3 × List ConsoleEv) :=
  bindE (memRead t.memory ((t.PC : Int) + sext9 t.IR)) (fun a =>
    if a = KBDR then
      bindE (writeReg_setcc t.registers ((t.IR >>> 9) &&& 7) (input : Nat)) (fun p =>
        Except.ok ({ t with registers := p.1, CC := p.2 },
          [ConsoleEv.setBlocking true, ConsoleEv.readCh, ConsoleEv.setBlocking false]))
    else
      bindE (memRead t.memory (a : Nat)) (fun v =>
        bindE (writeReg_setcc t.registers ((t.IR >>> 9) &&& 7) (v : Nat)) (fun p =>
          Except.ok ({ t with registers := p.1, CC := p.2 }, []))))

/-- Case `NOT`: `*DR = ~SR1; setcc` (`~` on the promoted `int`). -/
def execNOT (t : LC3) : Except Err (LC3 × List ConsoleEv) :=
  bindE (regRead t.registers ((t.IR >>> 6) &&& 7)) (fun sr1 =>
    bindE (writeReg_setcc t.registers ((t.IR >>> 9) &&& 7) (-(sr1 : Int) - 1)) (fun p =>
      Except.ok ({ t with registers := p.1, CC := p.2 }, [])))

/-- Case `LD`: `*DR = memory[PC + PCoffset].value; setcc`. -/
def execLD (t : LC3) : Except Err (LC3 × List ConsoleEv) :=
  bindE (memRead t.memory ((t.PC : Int) + sext9 t.IR)) (fun v =>
    bindE (writeReg_setcc t.registers ((t.IR >>> 9) &&& 7) (v : Nat)) (fun p =>
      Except.ok ({ t with registers := p.1, CC := p.2 }, [])))

/-- Cases `ADD` and `AND` (opcode 1 and 5, shared body): second operand is
the sign-extended 5-bit immediate when bit 5 is set, else `registers[IR & 7]`;
`*DR = SR1 + SR2` or `SR1 & SR2`; `setcc`. -/
def execADDAND (t : LC3) (opcode : Nat) : Except Err (LC3 × List ConsoleEv) :=
  bindE (regRead t.registers ((t.IR >>> 6) &&& 7)) (fun sr1 =>
    bindE (if t.IR &&& 0x0020 ≠ 0 then
             Except.ok ((t.IR &&& 0x1f) ||| (if t.IR &&& 0x10 ≠ 0 then 0xffe0 else 0))
           else regRead t.registers (t.IR &&& 7)) (fun sr2 =>
      bindE (writeReg_setcc t.registers ((t.IR >>> 9) &&& 7)
          (if opcode = 1 then (sr1 : Int) + (sr2 : Int) else ((sr1 &&& sr2 : Nat) : Int)))
        (fun p => Except.ok ({ t with registers := p.1, CC := p.2 }, []))))

/-- Case `BR`: branch when a set condition bit matches the current CC. -/
def execBR (t : LC3) : Except Err (LC3 × List ConsoleEv) :=
  if ((t.IR >>> 11) &&& 1 ≠ 0 ∧ t.CC = 78) ∨
     ((t.IR >>> 10) &&& 1 ≠ 0 ∧ t.CC = 90) ∨
     ((t.IR >>> 9) &&& 1 ≠ 0 ∧ t.CC = 80) then
    Except.ok ({ t with PC := u16 ((t.PC : Int) + sext9 t.IR) }, [])
  else
    Except.ok (t, [])

/-- Case `LDR`: `*DR = memory[SR1 + PCoffset].value; setcc`. -/
def execLDR (t : LC3) : Except Err (LC3 × List ConsoleEv) :=
  bindE (regRead t.registers ((t.IR >>> 6) &&& 7)) (fun sr1 =>
    bindE (memRead t.memory ((sr1 : Int) + sext6 t.IR)) (fun v =>
      bindE (writeReg_setcc t.registers ((t.IR >>> 9) &&& 7) (v : Nat)) (fun p =>
        Except.ok ({ t with registers := p.1, CC := p.2 }, []))))

/-- Case `ST`: `memory[PC + PCoffset].value = SR1`. -/
def execST (t : LC3) : Except Err (LC3 × List ConsoleEv) :=
  bindE (regRead t.registers ((t.IR >>> 9) &&& 7)) (fun sr1 =>
    bindE (memWrite t.memory ((t.PC : Int) + sext9 t.IR) (sr1 : Nat)) (fun m2 =>
      Except.ok ({ t with memory := m2 }, [])))

/-- Case `STR`: `memory[SR2 + PCoffset].value = SR1`. -/
def execSTR (t : LC3) : Except Err (LC3 × List ConsoleEv) :=
  bindE (regRead t.registers ((t.IR >>> 9) &&& 7)) (fun sr1 =>
    bindE (regRead t.registers ((t.IR >>> 6) &&& 7)) (fun sr2 =>
      bindE (memWrite t.memory ((sr2 : Int) + sext6 t.IR) (sr1 : Nat)) (fun m2 =>
        Except.ok ({ t with memory := m2 }, []))))

/-- Case `STI`: store `SR1` through the pointer cell, then re-read the
pointer cell and halt when that (post-store) value equals `MCR`. -/
def execSTI (t : LC3) : Except Err (LC3 × List ConsoleEv) :=
  bindE (regRead t.registers ((t.IR >>> 9) &&& 7)) (fun sr1 =>
    bindE (memRead t.memory ((t.PC : Int) + sext9 t.IR)) (fun a =>
      bindE (memWrite t.memory (a : Nat) (sr1 : Nat)) (fun m2 =>
        bindE (memRead m2 ((t.PC : Int) + sext9 t.IR)) (fun chk =>
          Except.ok ({ t with
                       memory := m2,
                       isHalted := if chk = MCR then true else t.isHalted }, [])))))

/-- Case `JMP`: `PC = SR1`. -/
def execJMP (t : LC3) : Except Err (LC3 × List ConsoleEv) :=
  bindE (regRead t.registers ((t.IR >>> 6) &&& 7)) (fun sr1 =>
    Except.ok ({ t with PC := sr1 % 65536 }, []))

/-- Case `JSR`: `registers[7] = PC` first, then PC-relative (bit 11 set) or
register jump; the register read happens after the `R7` write. -/
def execJSR (t : LC3) : Except Err (LC3 × List ConsoleEv) :=
  bindE (regWrite t.registers 7 (t.PC : Nat)) (fun r2 =>
    if t.IR &&& 0x800 = 0x800 then
      Except.ok ({ t with registers := r2, PC := u16 ((t.PC : Int) + sext11 t.IR) }, [])
    else
      bindE (regRead r2 ((t.IR >>> 6) &&& 7)) (fun sr1 =>
        Except.ok ({ t with registers := r2, PC := sr1 % 65536 }, [])))

/-- The device post-processing run unconditionally at the end of
`execute_next`: flush a nonzero DDR cell to the console (low 8 bits) and
clear it, then force KBSR and DSR to 0x8000. -/
def devicePost (t : LC3) (evs : List ConsoleEv) : Except Err (LC3 × List ConsoleEv) :=
  bindE (memRead t.memory (DDR : Nat)) (fun dv =>
    bindE (if dv ≠ 0 then
             bindE (memWrite t.memory (DDR : Nat) 0) (fun m2 =>
               Except.ok (m2, evs ++ [ConsoleEv.writeCh (dv &&& 0xff)]))
           else Except.ok (t.memory, evs)) (fun p =>
      bindE (memWrite p.1 (KBSR : Nat) 0x8000) (fun m3 =>
        bindE (memWrite m3 (DSR : Nat) 0x8000) (fun m4 =>
          Except.ok ({ t with memory := m4 }, p.2)))))

/-- The fetch step `IR = memory[PC++].value` as a state update. -/
def fetched (s : LC3) : LC3 :=
  { s with IR := s.memory s.PC % 65536, PC := (s.PC + 1) % 65536 }

/-- The body of the `switch` on the decoded opcode, in source case order;
opcodes 8 and 13 fall through to the no-op default. -/
def dispatchOn (t : LC3) (input : Nat) (opcode : Nat) : Except Err (LC3 × List ConsoleEv) :=
  if opcode = 15 then execTRAP t
  else if opcode = 14 then execLEA t
  else if opcode = 10 then execLDI t input
  else if opcode = 9 then execNOT t
  else if opcode = 2 then execLD t
  else if opcode = 1 ∨ opcode = 5 then execADDAND t opcode
  else if opcode = 0 then execBR t
  else if opcode = 6 then execLDR t
  else if opcode = 3 then execST t
  else if opcode = 7 then execSTR t
  else if opcode = 11 then execSTI t
  else if opcode = 12 then execJMP t
  else if opcode = 4 then execJSR t
  else Except.ok (t, [])

/-- The opcode dispatch: decode `(IR & 0xf000) >> 12` and run the switch. -/
def dispatch (t : LC3) (input : Nat) : Except Err (LC3 × List ConsoleEv) :=
  dispatchOn t input ((t.IR &&& 0xf000) >>> 12)

/-- Fetch followed by opcode dispatch (everything before the device
post-processing in `execute_next`). -/
def fetchDispatch (s : LC3) (input : Nat) : Except Err (LC3 × List ConsoleEv) :=
  bindE (memRead s.memory (s.PC : Nat)) (fun _ => dispatch (fetched s) input)

/-- The whole of `execute_next`: fetch, decode, dispatch, then the
unconditional device post-processing. -/
def execute_next (s : LC3) (input : Nat) : Except Err (LC3 × List ConsoleEv) :=
  bindE (fetchDispatch s input) (fun p => devicePost p.1 p.2)

/-- Destination-register observation of one step. -/
def stepReg (s : LC3) (input : Nat) (i : Nat) : Option Nat :=
  match execute_next s input with
  | Except.ok (t, _) => some (t.registers i)
  | Except.error _ => none

/-- Condition-code observation of one step. -/
def stepCC (s : LC3) (input : Nat) : Option Nat :=
  match execute_next s input with
  | Except.ok (t, _) => some t.CC
  | Except.error _ => none

/-- Program-counter observation of one step. -/
def stepPC (s : LC3) (input : Nat) : Option Nat :=
  match execute_next s input with
  | Except.ok (t, _) => some t.PC
  | Except.error _ => none

/-- Halt-flag observation of one step. -/
def stepHalted (s : LC3) (input : Nat) : Option Bool :=
  match execute_next s input with
  | Except.ok (t, _) => some t.isHalted
  | Except.error _ => none

/-- Console-event observation of one step. -/
def stepEvents (s : LC3) (input : Nat) : Option (List ConsoleEv) :=
  match execute_next s input with
  | Except.ok (_, evs) => some evs
  | Except.error _ => none

/-- Memory-cell observation of one step. -/
def stepMem (s : LC3) (input : Nat) (a : Nat) : Option Nat :=
  match execute_next s input with
  | Except.ok (t, _) => some (t.memory a)
  | Except.error _ => none

/-- Halt-flag observation of the STI case alone (on a post-fetch state). -/
def stiHalted (t : LC3) : Option Bool :=
  match execSTI t with
  | Except.ok (t2, _) => some t2.isHalted
  | Except.error _ => none

/-- Whether a step hit the register-file out-of-range branch. -/
def isRegErr : Except Err (LC3 × List ConsoleEv) → Bool :=
  fun r => match r with
  | Except.error Err.regOOB => true
  | _ => false

/-- The pointer-cell value that the STI case sees when it re-reads
`memory[PC + PCoffset]` after its store. -/
def stiHaltE (t : LC3) : Except Err Nat :=
  bindE (memRead t.memory ((t.PC : Int) + sext9 t.IR)) (fun a =>
    bindE (memWrite t.memory (a : Nat) (t.registers ((t.IR >>> 9) &&& 7) : Nat)) (fun m2 =>
      memRead m2 ((t.PC : Int) + sext9 t.IR)))

/-- The exact halting condition of the STI case, read off the source: the
value of the pointer cell `memory[PC + PCoffset]` re-read after the store
equals `MCR`. -/
def stiHaltCheck (t : LC3) : Bool :=
  match stiHaltE t with
  | Except.ok chk => if chk = MCR then true else false
  | Except.error _ => false

/-- The memory transformation of the device post-processing. -/
def postMem (m : Nat → Nat) : Nat → Nat :=
  fun j => if j = DSR then 0x8000 else if j = KBSR then 0x8000 else
    if j = DDR then 0 else m j

/-- The console events of the device post-processing. -/
def postEvs (m : Nat → Nat) : List ConsoleEv :=
  if m DDR ≠ 0 then [ConsoleEv.writeCh (m DDR &&& 0xff)] else []

/-- The `SR2` operand of ADD/AND, read off the shared source case. -/
def addandSR2 (t : LC3) : Nat :=
  if t.IR &&& 0x0020 ≠ 0 then (t.IR &&& 0x1f) ||| (if t.IR &&& 0x10 ≠ 0 then 0xffe0 else 0)
  else t.registers (t.IR &&& 7)

/-- The value ADD/AND stores into the destination register (before the
16-bit truncation of the store). -/
def addandVal (t : LC3) (opcode : Nat) : Int :=
  if opcode = 1 then (t.registers ((t.IR >>> 6) &&& 7) : Int) + (addandSR2 t : Int)
  else ((t.registers ((t.IR >>> 6) &&& 7) &&& addandSR2 t : Nat) : Int)

/-- The register file after the `registers[7] = PC` write of JSR/TRAP. -/
def save7 (t : LC3) : Nat → Nat :=
  fun j => if j = 7 then u16 (t.PC : Nat) else t.registers j

/-- Pre-state for the out-of-bounds LD: PC = 0, `memory[0] = 0x21FE`
(LD R0 with offset9 field 0x1FE, sign-extended to -2), all else zero. -/
def c1state : LC3 :=
  ⟨fun _ => 0, 0, 0, 80, false, fun a => if a = 0 then 0x21FE else 0⟩

/-- Pre-state for the LEA boundary example: PC = 0x2FFF holding
`0xE1FF` (LEA R0 with offset9 field 0x1FF), so the post-fetch PC is 0x3000. -/
def c8state : LC3 :=
  ⟨fun _ => 0, 0x2FFF, 0, 80, false, fun a => if a = 0x2FFF then 0xE1FF else 0⟩

/-- Pre-state exercising the device flush: the fetched instruction is the
unimplemented opcode 13 (a no-op) and the DDR cell holds 0x141. -/
def c5pre : LC3 :=
  ⟨fun _ => 0, 0, 0, 80, false,
    fun a => if a = 0 then 0xD000 else if a = 0xFE06 then 0x141 else 0⟩

/-- The post-dispatch state of `c5pre` (before device post-processing). -/
def c5mid : LC3 :=
  match fetchDispatch c5pre 0 with
  | Except.ok p => p.1
  | Except.error _ => c5pre

/-- Pre-state for the CC witness: a LEA (CC-updating) instruction. -/
def c7pre : LC3 :=
  ⟨fun _ => 0, 0x3000, 0, 90, false, fun a => if a = 0x3000 then 0xE005 else 0⟩

/-- The result state of stepping `c7pre`. -/
def c7post : LC3 :=
  match execute_next c7pre 0 with
  | Except.ok p => p.1
  | Except.error _ => c7pre

/-- The console events of stepping `c7pre`. -/
def c7evs : List ConsoleEv :=
  match execute_next c7pre 0 with
  | Except.ok p => p.2
  | Except.error _ => []

/-- C9 counterexample: the claim says the only RUNNING-to-HALTED transition
is an STI whose computed target address equals MCR (0xFFFE).  But the code
re-reads `memory[PC + offset9]` after the store: when the pointer cell is
its own target (here `memory[0x4001] = 0x4001`) and the stored register
holds 0xFFFE, the machine halts even though the computed target address
0x4001 is not MCR. -/
def c9x : LC3 :=
  ⟨fun _ => 0xFFFE, 0x4000, 0, 80, false,
    fun a => if a = 0x4000 then 0xB000 else if a = 0x4001 then 0x4001 else 0⟩

/-- Pre-state for the halt witness: an STI storing through a pointer cell
that holds MCR (0xFFFE), the ordinary halting store. -/
def c9pre : LC3 :=
  ⟨fun _ => 0, 0x4100, 0, 80, false,
    fun a => if a = 0x4100 then 0xB000 else if a = 0x4101 then 0xFFFE else 0⟩

/-- The result state of stepping `c9pre`. -/
def c9post : LC3 :=
  match execute_next c9pre 0 with
  | Except.ok p => p.1
  | Except.error _ => c9pre

/-- The console events of stepping `c9pre`. -/
def c9evs : List ConsoleEv :=
  match execute_next c9pre 0 with
  | Except.ok p => p.2
  | Except.error _ => []

/-- Post-fetch state for the STI aliasing counterexample: PC = 0x3001 (after
fetching the STI `0xB000` at 0x3000), `memory[0x3001] = 0x3001` (the pointer
cell points at itself), and R0 holds 0xFFFE. -/
def c2t : LC3 :=
  ⟨fun _ => 0xFFFE, 0x3001, 0xB000, 80, false,
    fun a => if a = 0x3001 then 0x3001 else 0⟩

/-- Post-fetch state for the STI witness: PC = 0x3001 (after fetching the
STI `0xB000` at 0x3000), `memory[0x3001] = 0xFFFE` (the pointer cell holds
the MCR address), R0 = 0x1234. -/
def w2t : LC3 :=
  ⟨fun _ => 0x1234, 0x3001, 0xB000, 80, false,
    fun a => if a = 0x3001 then 0xFFFE else 0⟩

/-- Pre-state refuting the claim ADD example: PC = 0x3000 holding IR
0x1042, R1 = 5 (all other registers 0). -/
def c3x : LC3 :=
  ⟨fun j => if j = 1 then 5 else 0, 0x3000, 0, 80, false,
    fun a => if a = 0x3000 then 0x1042 else 0⟩

/-- Pre-state realising the corrected ADD example: IR 0x1062 (immediate
mode, imm5 = 2), R1 = 5. -/
def c3w : LC3 :=
  ⟨fun j => if j = 1 then 5 else 0, 0x3000, 0, 80, false,
    fun a => if a = 0x3000 then 0x1062 else 0⟩

/-- Pre-state for the LDI interception witness: the LDI `0xA000` at 0x3000,
whose pointer cell 0x3001 holds the KBDR address 0xFE02; the DDR cell is 0,
so the step console events are exactly the blocking-read bracket. -/
def c4pre : LC3 :=
  ⟨fun _ => 0, 0x3000, 0, 80, false,
    fun a => if a = 0x3000 then 0xA000 else if a = 0x3001 then 0xFE02 else 0⟩

/-- Pre-state for the BR witness: CC = Z and the instruction 0x05FE
(BR with z bit set, offset9 field 0x1FE = -2) at PC = 0x3000, so the branch
is taken to 0x2FFF. -/
def c6pre : LC3 :=
  ⟨fun _ => 0, 0x3000, 0, 90, false, fun a => if a = 0x3000 then 0x05FE else 0⟩

@[simp] lemma bindE_ok {α β : Type} (a : α) (f : α → Except Err β) :
    bindE (Except.ok a) f = f a := rfl

@[simp] lemma bindE_error {α β : Type} (e : Err) (f : α → Except Err β) :
    bindE (Except.error e) f = Except.error e := rfl

lemma bindE_eq_ok {α β : Type} {x : Except Err α} {f : α → Except Err β}
    {b : β} (h : bindE x f = Except.ok b) :
    ∃ a, x = Except.ok a ∧ f a = Except.ok b := by
  cases x with
  | ok a => exact ⟨a, rfl, h⟩
  | error e => simp [bindE] at h

lemma bindE_eq_error {α β : Type} {x : Except Err α} {f : α → Except Err β}
    {e : Err} (h : bindE x f = Except.error e) :
    x = Except.error e ∨ ∃ a, x = Except.ok a ∧ f a = Except.error e := by
  cases x with
  | ok a => exact Or.inr ⟨a, rfl, h⟩
  | error e2 =>
    left
    simp only [bindE_error, Except.error.injEq] at h
    rw [h]

lemma and7_lt (n : Nat) : n &&& 7 < 8 :=
  Nat.lt_succ_of_le Nat.and_le_right

lemma regRead_and7 (r : Nat → Nat) (n : Nat) :
    regRead r (n &&& 7) = Except.ok (r (n &&& 7)) := by
  unfold regRead; rw [if_pos (and7_lt n)]

lemma regRead_7 (r : Nat → Nat) : regRead r 7 = Except.ok (r 7) := by
  unfold regRead; norm_num

lemma regWrite_and7 (r : Nat → Nat) (n : Nat) (v : Int) :
    regWrite r (n &&& 7) v = Except.ok (fun j => if j = n &&& 7 then u16 v else r j) := by
  unfold regWrite; rw [if_pos (and7_lt n)]

lemma regWrite_7 (r : Nat → Nat) (v : Int) :
    regWrite r 7 v = Except.ok (fun j => if j = 7 then u16 v else r j) := by
  unfold regWrite; norm_num

lemma writeReg_setcc_and7 (r : Nat → Nat) (n : Nat) (v : Int) :
    writeReg_setcc r (n &&& 7) v =
      Except.ok ((fun j => if j = n &&& 7 then u16 v else r j), setcc (u16 v)) := by
  simp [writeReg_setcc, regWrite_and7, regRead_and7]

lemma memRead_lt (m : Nat → Nat) (a : Nat) (h : a < 65536) :
    memRead m (a : Nat) = Except.ok (m a) := by
  unfold memRead
  rw [if_pos ⟨Int.ofNat_nonneg a, by simpa using h⟩]
  simp

lemma memWrite_lt (m : Nat → Nat) (a : Nat) (v : Int) (h : a < 65536) :
    memWrite m (a : Nat) v = Except.ok (fun j => if j = a then u16 v else m j) := by
  unfold memWrite
  rw [if_pos ⟨Int.ofNat_nonneg a, by simpa using h⟩]
  simp

lemma memRead_in (m : Nat → Nat) (i : Int) (h : 0 ≤ i ∧ i < 65536) :
    memRead m i = Except.ok (m i.toNat) := by
  unfold memRead; rw [if_pos ⟨h.1, by omega⟩]

lemma memRead_error {m : Nat → Nat} {i : Int} {e : Err}
    (h : memRead m i = Except.error e) : e = Err.memOOB := by
  unfold memRead at h; split at h <;> simp_all

lemma memWrite_error {m : Nat → Nat} {i v : Int} {e : Err}
    (h : memWrite m i v = Except.error e) : e = Err.memOOB := by
  unfold memWrite at h; split at h <;> simp_all

lemma u16_coe (v : Nat) : u16 (v : Nat) = v % 65536 := by
  unfold u16; norm_cast

lemma u16_lt (v : Nat) (h : v < 65536) : u16 (v : Nat) = v := by
  rw [u16_coe]; exact Nat.mod_eq_of_lt h

lemma sext9_spec (x : Nat) : sext9 x = specSext 9 (x &&& 0x1ff) := by
  have h : x &&& 0x1ff < 512 := Nat.lt_succ_of_le Nat.and_le_right
  have key : ∀ f, f < 512 → sra (toInt16 (f <<< 7)) 7 = specSext 9 f := by decide
  exact key _ h

lemma and_1f_and_10 (x : Nat) : (x &&& 0x1f) &&& 0x10 = x &&& 0x10 := by
  rw [Nat.and_assoc, show (31 &&& 16 : Nat) = 16 from by decide]

lemma imm5_eq (x : Nat) :
    ((x &&& 0x1f) ||| (if x &&& 0x10 ≠ 0 then 0xffe0 else 0)) =
      u16 (specSext 5 (x &&& 0x1f)) := by
  have h : x &&& 0x1f < 32 := Nat.lt_succ_of_le Nat.and_le_right
  rw [show (x &&& 0x10) = (x &&& 0x1f) &&& 0x10 from (and_1f_and_10 x).symm]
  have key : ∀ f, f < 32 →
      (f ||| (if f &&& 0x10 ≠ 0 then 0xffe0 else 0)) = u16 (specSext 5 f) := by decide
  exact key _ h

lemma execTRAP_eq (t : LC3) :
    execTRAP t = Except.ok
      ({ t with registers := save7 t, PC := t.memory (t.IR &&& 0xff) % 65536 }, []) := by
  have hlt : t.IR &&& 0xff < 65536 := lt_of_le_of_lt Nat.and_le_right (by norm_num)
  simp [execTRAP, regWrite_7, memRead_lt _ _ hlt]
  rfl

lemma execLEA_eq (t : LC3) :
    execLEA t = Except.ok
      ({ t with
         registers := fun j => if j = (t.IR >>> 9) &&& 7 then
           u16 ((t.PC : Int) + sext9 t.IR) else t.registers j,
         CC := setcc (u16 ((t.PC : Int) + sext9 t.IR)) }, []) := by
  simp [execLEA, writeReg_setcc_and7]

lemma execNOT_eq (t : LC3) :
    execNOT t = Except.ok
      ({ t with
         registers := fun j => if j = (t.IR >>> 9) &&& 7 then
           u16 (-(t.registers ((t.IR >>> 6) &&& 7) : Int) - 1) else t.registers j,
         CC := setcc (u16 (-(t.registers ((t.IR >>> 6) &&& 7) : Int) - 1)) }, []) := by
  simp [execNOT, regRead_and7, writeReg_setcc_and7]

lemma execADDAND_eq (t : LC3) (opcode : Nat) :
    execADDAND t opcode = Except.ok
      ({ t with
         registers := fun j => if j = (t.IR >>> 9) &&& 7 then
           u16 (addandVal t opcode) else t.registers j,
         CC := setcc (u16 (addandVal t opcode)) }, []) := by
  by_cases h5 : t.IR &&& 0x0020 ≠ 0 <;>
    simp [execADDAND, regRead_and7, writeReg_setcc_and7, addandVal, addandSR2, h5]

lemma execBR_eq (t : LC3) :
    execBR t = Except.ok
      ((if ((t.IR >>> 11) &&& 1 ≠ 0 ∧ t.CC = 78) ∨
           ((t.IR >>> 10) &&& 1 ≠ 0 ∧ t.CC = 90) ∨
           ((t.IR >>> 9) &&& 1 ≠ 0 ∧ t.CC = 80) then
          { t with PC := u16 ((t.PC : Int) + sext9 t.IR) } else t), []) := by
  unfold execBR
  split <;> rfl

lemma execJMP_eq (t : LC3) :
    execJMP t = Except.ok
      ({ t with PC := t.registers ((t.IR >>> 6) &&& 7) % 65536 }, []) := by
  simp [execJMP, regRead_and7]

lemma execJSR_eq (t : LC3) :
    execJSR t = Except.ok
      ({ t with
         registers := save7 t,
         PC := if t.IR &&& 0x800 = 0x800 then u16 ((t.PC : Int) + sext11 t.IR)
           else (if (t.IR >>> 6) &&& 7 = 7 then u16 (t.PC : Nat)
             else t.registers ((t.IR >>> 6) &&& 7)) % 65536 }, []) := by
  by_cases hb : t.IR &&& 0x800 = 0x800 <;>
    · simp [execJSR, regWrite_7, regRead_and7, hb]
      rfl

lemma devicePost_eq (t : LC3) (evs : List ConsoleEv) :
    devicePost t evs = Except.ok
      ({ t with memory := postMem t.memory }, evs ++ postEvs t.memory) := by
  have hK : KBSR < 65536 := by norm_num [KBSR]
  have hD : DSR < 65536 := by norm_num [DSR]
  have hDD : DDR < 65536 := by norm_num [DDR]
  unfold devicePost
  rw [memRead_lt _ _ hDD]
  simp only [bindE_ok]
  by_cases hz : t.memory DDR = 0
  · rw [if_neg (by simp [hz])]
    simp only [bindE_ok]
    rw [memWrite_lt _ _ _ hK]
    simp only [bindE_ok]
    rw [memWrite_lt _ _ _ hD]
    simp only [bindE_ok]
    simp [postEvs, hz]
    funext j
    by_cases h1 : j = DSR <;> by_cases h2 : j = KBSR <;> by_cases h3 : j = DDR <;>
      simp_all [postMem, KBSR, DSR, DDR, u16, hz]
  · rw [if_pos hz]
    rw [memWrite_lt _ _ _ hDD]
    simp only [bindE_ok]
    rw [memWrite_lt _ _ _ hK]
    simp only [bindE_ok]
    rw [memWrite_lt _ _ _ hD]
    simp only [bindE_ok]
    simp [postEvs, hz]
    funext j
    by_cases h1 : j = DSR <;> by_cases h2 : j = KBSR <;> by_cases h3 : j = DDR <;>
      simp_all [postMem, KBSR, DSR, DDR, u16]

lemma execLD_ok {t t2 : LC3} {evs : List ConsoleEv}
    (h : execLD t = Except.ok (t2, evs)) :
    t2.CC = setcc (t2.registers ((t.IR >>> 9) &&& 7)) ∧
    t2.IR = t.IR ∧ t2.isHalted = t.isHalted := by
  unfold execLD at h
  obtain ⟨v, hv, h⟩ := bindE_eq_ok h
  rw [writeReg_setcc_and7] at h
  simp only [bindE_ok, Except.ok.injEq, Prod.mk.injEq] at h
  obtain ⟨h1, h2⟩ := h
  rw [← h1]
  simp

lemma execLDI_ok {t t2 : LC3} {evs : List ConsoleEv} {input : Nat}
    (h : execLDI t input = Except.ok (t2, evs)) :
    t2.CC = setcc (t2.registers ((t.IR >>> 9) &&& 7)) ∧
    t2.IR = t.IR ∧ t2.isHalted = t.isHalted := by
  unfold execLDI at h
  obtain ⟨a, ha, h⟩ := bindE_eq_ok h
  by_cases hk : a = KBDR
  · rw [if_pos hk, writeReg_setcc_and7] at h
    simp only [bindE_ok, Except.ok.injEq, Prod.mk.injEq] at h
    obtain ⟨h1, h2⟩ := h
    rw [← h1]
    simp
  · rw [if_neg hk] at h
    obtain ⟨v, hv, h⟩ := bindE_eq_ok h
    rw [writeReg_setcc_and7] at h
    simp only [bindE_ok, Except.ok.injEq, Prod.mk.injEq] at h
    obtain ⟨h1, h2⟩ := h
    rw [← h1]
    simp

lemma execLDR_ok {t t2 : LC3} {evs : List ConsoleEv}
    (h : execLDR t = Except.ok (t2, evs)) :
    t2.CC = setcc (t2.registers ((t.IR >>> 9) &&& 7)) ∧
    t2.IR = t.IR ∧ t2.isHalted = t.isHalted := by
  unfold execLDR at h
  rw [regRead_and7] at h
  simp only [bindE_ok] at h
  obtain ⟨v, hv, h⟩ := bindE_eq_ok h
  rw [writeReg_setcc_and7] at h
  simp only [bindE_ok, Except.ok.injEq, Prod.mk.injEq] at h
  obtain ⟨h1, h2⟩ := h
  rw [← h1]
  simp

lemma execST_ok {t t2 : LC3} {evs : List ConsoleEv}
    (h : execST t = Except.ok (t2, evs)) :
    t2.CC = t.CC ∧ t2.IR = t.IR ∧ t2.isHalted = t.isHalted := by
  unfold execST at h
  rw [regRead_and7] at h
  simp only [bindE_ok] at h
  obtain ⟨m2, hm, h⟩ := bindE_eq_ok h
  simp only [Except.ok.injEq, Prod.mk.injEq] at h
  obtain ⟨h1, h2⟩ := h
  rw [← h1]
  simp

lemma execSTR_ok {t t2 : LC3} {evs : List ConsoleEv}
    (h : execSTR t = Except.ok (t2, evs)) :
    t2.CC = t.CC ∧ t2.IR = t.IR ∧ t2.isHalted = t.isHalted := by
  unfold execSTR at h
  rw [regRead_and7] at h
  simp only [bindE_ok] at h
  rw [regRead_and7] at h
  simp only [bindE_ok] at h
  obtain ⟨m2, hm, h⟩ := bindE_eq_ok h
  simp only [Except.ok.injEq, Prod.mk.injEq] at h
  obtain ⟨h1, h2⟩ := h
  rw [← h1]
  simp

lemma execSTI_ok {t t2 : LC3} {evs : List ConsoleEv}
    (h : execSTI t = Except.ok (t2, evs)) :
    t2.CC = t.CC ∧ t2.IR = t.IR ∧
    t2.isHalted = (if stiHaltCheck t = true then true else t.isHalted) := by
  unfold execSTI at h
  rw [regRead_and7] at h
  simp only [bindE_ok] at h
  obtain ⟨a, ha, h⟩ := bindE_eq_ok h
  obtain ⟨m2, hm, h⟩ := bindE_eq_ok h
  obtain ⟨chk, hchk, h⟩ := bindE_eq_ok h
  have hE : stiHaltE t = Except.ok chk := by
    unfold stiHaltE
    rw [ha]
    simp only [bindE_ok]
    rw [hm]
    simp only [bindE_ok]
    exact hchk
  have hC : stiHaltCheck t = (if chk = MCR then true else false) := by
    unfold stiHaltCheck
    rw [hE]
  simp only [Except.ok.injEq, Prod.mk.injEq] at h
  obtain ⟨h1, h2⟩ := h
  rw [← h1]
  refine ⟨rfl, rfl, ?_⟩
  by_cases hm2 : chk = MCR <;> simp [hC, hm2]

lemma execLD_ne (t : LC3) : execLD t ≠ Except.error Err.regOOB := by
  intro h
  unfold execLD at h
  rcases bindE_eq_error h with h1 | ⟨v, hv, h1⟩
  · exact absurd (memRead_error h1) (by decide)
  · rw [writeReg_setcc_and7] at h1
    simp at h1

lemma execLDI_ne (t : LC3) (input : Nat) :
    execLDI t input ≠ Except.error Err.regOOB := by
  intro h
  unfold execLDI at h
  rcases bindE_eq_error h with h1 | ⟨a, ha, h1⟩
  · exact absurd (memRead_error h1) (by decide)
  · by_cases hk : a = KBDR
    · rw [if_pos hk, writeReg_setcc_and7] at h1
      simp at h1
    · rw [if_neg hk] at h1
      rcases bindE_eq_error h1 with h2 | ⟨v, hv, h2⟩
      · exact absurd (memRead_error h2) (by decide)
      · rw [writeReg_setcc_and7] at h2
        simp at h2

lemma execLDR_ne (t : LC3) : execLDR t ≠ Except.error Err.regOOB := by
  intro h
  unfold execLDR at h
  rw [regRead_and7] at h
  simp only [bindE_ok] at h
  rcases bindE_eq_error h with h1 | ⟨v, hv, h1⟩
  · exact absurd (memRead_error h1) (by decide)
  · rw [writeReg_setcc_and7] at h1
    simp at h1

lemma execST_ne (t : LC3) : execST t ≠ Except.error Err.regOOB := by
  intro h
  unfold execST at h
  rw [regRead_and7] at h
  simp only [bindE_ok] at h
  rcases bindE_eq_error h with h1 | ⟨m2, hm, h1⟩
  · exact absurd (memWrite_error h1) (by decide)
  · simp at h1

lemma execSTR_ne (t : LC3) : execSTR t ≠ Except.error Err.regOOB := by
  intro h
  unfold execSTR at h
  rw [regRead_and7] at h
  simp only [bindE_ok] at h
  rw [regRead_and7] at h
  simp only [bindE_ok] at h
  rcases bindE_eq_error h with h1 | ⟨m2, hm, h1⟩
  · exact absurd (memWrite_error h1) (by decide)
  · simp at h1

lemma execSTI_ne (t : LC3) : execSTI t ≠ Except.error Err.regOOB := by
  intro h
  unfold execSTI at h
  rw [regRead_and7] at h
  simp only [bindE_ok] at h
  rcases bindE_eq_error h with h1 | ⟨a, ha, h1⟩
  · exact absurd (memRead_error h1) (by decide)
  · rcases bindE_eq_error h1 with h2 | ⟨m2, hm, h2⟩
    · exact absurd (memWrite_error h2) (by decide)
    · rcases bindE_eq_error h2 with h3 | ⟨chk, hchk, h3⟩
      · exact absurd (memRead_error h3) (by decide)
      · simp at h3

lemma dispatchOn_default (t : LC3) (input : Nat) (opcode : Nat) (hge : 16 ≤ opcode) :
    dispatchOn t input opcode = Except.ok (t, []) := by
  have hne : ∀ k, k < 16 → opcode ≠ k := fun k hk he => by omega
  have hor : ¬(opcode = 1 ∨ opcode = 5) := fun hc => by
    rcases hc with h | h <;> omega
  unfold dispatchOn
  rw [if_neg (hne 15 (by norm_num)), if_neg (hne 14 (by norm_num)),
    if_neg (hne 10 (by norm_num)), if_neg (hne 9 (by norm_num)),
    if_neg (hne 2 (by norm_num)), if_neg hor, if_neg (hne 0 (by norm_num)),
    if_neg (hne 6 (by norm_num)), if_neg (hne 3 (by norm_num)),
    if_neg (hne 7 (by norm_num)), if_neg (hne 11 (by norm_num)),
    if_neg (hne 12 (by norm_num)), if_neg (hne 4 (by norm_num))]

lemma dispatchOn_ne_regErr (t : LC3) (input : Nat) (opcode : Nat) :
    dispatchOn t input opcode ≠ Except.error Err.regOOB := by
  rcases Nat.lt_or_ge opcode 16 with hlt | hge
  · interval_cases opcode
    · simp [dispatchOn, execBR_eq]
    · simp [dispatchOn, execADDAND_eq]
    · simpa [dispatchOn] using execLD_ne t
    · simpa [dispatchOn] using execST_ne t
    · simp [dispatchOn, execJSR_eq]
    · simp [dispatchOn, execADDAND_eq]
    · simpa [dispatchOn] using execLDR_ne t
    · simpa [dispatchOn] using execSTR_ne t
    · simp [dispatchOn]
    · simp [dispatchOn, execNOT_eq]
    · simpa [dispatchOn] using execLDI_ne t input
    · simpa [dispatchOn] using execSTI_ne t
    · simp [dispatchOn, execJMP_eq]
    · simp [dispatchOn]
    · simp [dispatchOn, execLEA_eq]
    · simp [dispatchOn, execTRAP_eq]
  · rw [dispatchOn_default t input opcode hge]
    simp

lemma dispatchOn_inv {t t2 : LC3} {evs : List ConsoleEv} {input opcode : Nat}
    (h : dispatchOn t input opcode = Except.ok (t2, evs)) :
    t2.IR = t.IR ∧
    (t2.isHalted = t.isHalted ∨
      (t2.isHalted = true ∧ opcode = 11 ∧ stiHaltCheck t = true)) ∧
    (if opcode = 1 ∨ opcode = 5 ∨ opcode = 9 ∨ opcode = 2 ∨
        opcode = 10 ∨ opcode = 6 ∨ opcode = 14
     then t2.CC = setcc (t2.registers ((t.IR >>> 9) &&& 7))
     else t2.CC = t.CC) := by
  rcases Nat.lt_or_ge opcode 16 with hlt | hge
  · interval_cases opcode
    · -- BR (0)
      simp only [dispatchOn, execBR_eq] at h
      norm_num at h
      obtain ⟨h1, h2⟩ := h
      subst h1
      refine ⟨by split <;> rfl, Or.inl (by split <;> rfl), ?_⟩
      rw [if_neg (by norm_num)]
      split <;> rfl
    · -- ADD (1)
      simp only [dispatchOn] at h
      norm_num at h
      rw [execADDAND_eq] at h
      simp only [Except.ok.injEq, Prod.mk.injEq] at h
      obtain ⟨h1, h2⟩ := h
      subst h1
      norm_num
    · -- LD (2)
      simp only [dispatchOn] at h
      norm_num at h
      have hi := execLD_ok h
      refine ⟨hi.2.1, Or.inl hi.2.2, ?_⟩
      norm_num
      exact hi.1
    · -- ST (3)
      simp only [dispatchOn] at h
      norm_num at h
      have hi := execST_ok h
      refine ⟨hi.2.1, Or.inl hi.2.2, ?_⟩
      norm_num
      exact hi.1
    · -- JSR (4)
      simp only [dispatchOn] at h
      norm_num at h
      rw [execJSR_eq] at h
      simp only [Except.ok.injEq, Prod.mk.injEq] at h
      obtain ⟨h1, h2⟩ := h
      subst h1
      norm_num
    · -- AND (5)
      simp only [dispatchOn] at h
      norm_num at h
      rw [execADDAND_eq] at h
      simp only [Except.ok.injEq, Prod.mk.injEq] at h
      obtain ⟨h1, h2⟩ := h
      subst h1
      norm_num
    · -- LDR (6)
      simp only [dispatchOn] at h
      norm_num at h
      have hi := execLDR_ok h
      refine ⟨hi.2.1, Or.inl hi.2.2, ?_⟩
      norm_num
      exact hi.1
    · -- STR (7)
      simp only [dispatchOn] at h
      norm_num at h
      have hi := execSTR_ok h
      refine ⟨hi.2.1, Or.inl hi.2.2, ?_⟩
      norm_num
      exact hi.1
    · -- unimplemented (8)
      simp only [dispatchOn] at h
      norm_num at h
      obtain ⟨h1, h2⟩ := h
      subst h1
      norm_num
    · -- NOT (9)
      simp only [dispatchOn] at h
      norm_num at h
      rw [execNOT_eq] at h
      simp only [Except.ok.injEq, Prod.mk.injEq] at h
      obtain ⟨h1, h2⟩ := h
      subst h1
      norm_num
    · -- LDI (10)
      simp only [dispatchOn] at h
      norm_num at h
      have hi := execLDI_ok h
      refine ⟨hi.2.1, Or.inl hi.2.2, ?_⟩
      norm_num
      exact hi.1
    · -- STI (11)
      simp only [dispatchOn] at h
      norm_num at h
      have hi := execSTI_ok h
      refine ⟨hi.2.1, ?_, ?_⟩
      · by_cases hc : stiHaltCheck t = true
        · exact Or.inr ⟨by simp [hi.2.2, hc], rfl, hc⟩
        · left
          simp only [hi.2.2, hc]
          simp
      · norm_num
        exact hi.1
    · -- JMP (12)
      simp only [dispatchOn] at h
      norm_num at h
      rw [execJMP_eq] at h
      simp only [Except.ok.injEq, Prod.mk.injEq] at h
      obtain ⟨h1, h2⟩ := h
      subst h1
      norm_num
    · -- unimplemented (13)
      simp only [dispatchOn] at h
      norm_num at h
      obtain ⟨h1, h2⟩ := h
      subst h1
      norm_num
    · -- LEA (14)
      simp only [dispatchOn] at h
      norm_num at h
      rw [execLEA_eq] at h
      simp only [Except.ok.injEq, Prod.mk.injEq] at h
      obtain ⟨h1, h2⟩ := h
      subst h1
      norm_num
    · -- TRAP (15)
      simp only [dispatchOn] at h
      norm_num at h
      rw [execTRAP_eq] at h
      simp only [Except.ok.injEq, Prod.mk.injEq] at h
      obtain ⟨h1, h2⟩ := h
      subst h1
      norm_num
  · -- opcode above 15: default no-op
    rw [dispatchOn_default t input opcode hge] at h
    simp only [Except.ok.injEq, Prod.mk.injEq] at h
    obtain ⟨h1, h2⟩ := h
    subst h1
    rw [if_neg (by omega)]
    exact ⟨rfl, Or.inl rfl, rfl⟩

lemma execute_next_ok {s : LC3} {input : Nat} {s1 : LC3} {evs1 : List ConsoleEv}
    (h : execute_next s input = Except.ok (s1, evs1)) :
    ∃ t2 evs2, dispatch (fetched s) input = Except.ok (t2, evs2) ∧
      s1 = { t2 with memory := postMem t2.memory } ∧
      evs1 = evs2 ++ postEvs t2.memory := by
  unfold execute_next at h
  obtain ⟨p, hp, h⟩ := bindE_eq_ok h
  unfold fetchDispatch at hp
  obtain ⟨v, hv, hp⟩ := bindE_eq_ok hp
  rw [devicePost_eq] at h
  simp only [Except.ok.injEq, Prod.mk.injEq] at h
  exact ⟨p.1, p.2, hp, h.1.symm, h.2.symm⟩

lemma execute_next_opcode (s : LC3) (input : Nat) (hPC : s.PC < 65536) :
    execute_next s input = bindE (dispatch (fetched s) input) (fun p => devicePost p.1 p.2) := by
  unfold execute_next fetchDispatch
  rw [memRead_lt _ _ hPC]
  simp only [bindE_ok]

/-- C1: the claim states that every effective memory address is reduced
modulo 2^16 before indexing, so no index is out of bounds.  The code
violates this: `memory[PC + PCoffset]` adds a `uint16_t` and an `int16_t`,
which C promotes to `int`, so with post-fetch PC = 1 and offset -2 the index
is the `int` -1 and the 65536-entry array is accessed out of bounds.  In the
embedding, stepping `c1state` reaches the memory out-of-range branch. -/
theorem ld_negative_offset_out_of_bounds :
    execute_next c1state 0 = Except.error Err.memOOB := rfl

/-- C8: the 9-bit offset field is sign-extended: field 0x1FF extends to -1
and field 0x100 to -256 (both under the source shift computation `sext9`
and the spec plain sign extension `specSext`); and LEA with post-fetch
PC = 0x3000 and offset field 0x1FF writes DR = 0x2FFF. -/
theorem sext9_boundary :
    sext9 0x1FF = -1 ∧ sext9 0x100 = -256 ∧
    specSext 9 0x1FF = -1 ∧ specSext 9 0x100 = -256 ∧
    stepReg c8state 0 0 = some 0x2FFF :=
  ⟨by decide, by decide, by decide, by decide, by decide⟩

/-- C10: a step never reaches the register-file out-of-range branch: every
register index in `execute_next` is a 3-bit field masked with `& 7` or the
constant 7, hence below 8, for every pre-state and every IR encoding. -/
theorem register_index_in_bounds (s : LC3) (input : Nat) :
    isRegErr (execute_next s input) = false := by
  unfold execute_next
  cases hf : fetchDispatch s input with
  | error e =>
    have he : e ≠ Err.regOOB := by
      intro hee
      subst hee
      unfold fetchDispatch at hf
      rcases bindE_eq_error hf with h1 | ⟨v, hv, h1⟩
      · exact absurd (memRead_error h1) (by decide)
      · exact dispatchOn_ne_regErr (fetched s) input _ h1
    cases e with
    | memOOB => rfl
    | regOOB => exact absurd rfl he
  | ok p =>
    simp only [bindE_ok]
    rw [devicePost_eq]
    rfl

/-- C5: the device post-processing runs unconditionally after the dispatched
instruction: `execute_next` is exactly dispatch followed by `devicePost`,
which forces KBSR and DSR to 0x8000, clears DDR to 0, and emits the low
8 bits of DDR as one console character exactly when DDR was nonzero at the
end of instruction execution. -/
theorem device_flush (s : LC3) (input : Nat) (t : LC3) (evs : List ConsoleEv)
    (h : fetchDispatch s input = Except.ok (t, evs)) :
    execute_next s input =
      Except.ok ({ t with memory := postMem t.memory }, evs ++ postEvs t.memory) ∧
    postMem t.memory KBSR = 0x8000 ∧ postMem t.memory DSR = 0x8000 ∧
    postMem t.memory DDR = 0 ∧
    postEvs t.memory =
      (if t.memory DDR ≠ 0 then [ConsoleEv.writeCh (t.memory DDR &&& 0xff)] else []) := by
  refine ⟨?_, ?_, ?_, ?_, rfl⟩
  · unfold execute_next
    rw [h]
    simp only [bindE_ok]
    exact devicePost_eq t evs
  · norm_num [postMem, KBSR, DSR, DDR]
  · norm_num [postMem, KBSR, DSR, DDR]
  · norm_num [postMem, KBSR, DSR, DDR]

theorem device_flush_witness :
    execute_next c5pre 0 =
      Except.ok ({ c5mid with memory := postMem c5mid.memory },
        [] ++ postEvs c5mid.memory) ∧
    stepEvents c5pre 0 = some [ConsoleEv.writeCh 0x41] ∧
    stepMem c5pre 0 0xFE00 = some 0x8000 ∧
    stepMem c5pre 0 0xFE04 = some 0x8000 ∧
    stepMem c5pre 0 0xFE06 = some 0 :=
  ⟨(device_flush c5pre 0 c5mid [] rfl).1, by decide, by decide, by decide, by decide⟩

/-- C7: after a successful step, the condition code equals `setcc` of the
value just written to the destination register `[11:9]` for exactly the
opcodes ADD (1), AND (5), NOT (9), LD (2), LDI (10), LDR (6), LEA (14);
every other opcode (BR, ST, STR, STI, JMP, JSR, TRAP and the two
unimplemented values) leaves CC unchanged. -/
theorem cc_discipline (s : LC3) (input : Nat) (s1 : LC3) (evs1 : List ConsoleEv)
    (h : execute_next s input = Except.ok (s1, evs1)) :
    if (s1.IR &&& 0xf000) >>> 12 = 1 ∨ (s1.IR &&& 0xf000) >>> 12 = 5 ∨
       (s1.IR &&& 0xf000) >>> 12 = 9 ∨ (s1.IR &&& 0xf000) >>> 12 = 2 ∨
       (s1.IR &&& 0xf000) >>> 12 = 10 ∨ (s1.IR &&& 0xf000) >>> 12 = 6 ∨
       (s1.IR &&& 0xf000) >>> 12 = 14
    then s1.CC = setcc (s1.registers ((s1.IR >>> 9) &&& 7))
    else s1.CC = s.CC := by
  obtain ⟨t2, evs2, hd, h1, h2⟩ := execute_next_ok h
  subst h1
  have hi := dispatchOn_inv hd
  dsimp only
  rw [hi.1]
  exact hi.2.2

theorem cc_discipline_witness :
    execute_next c7pre 0 = Except.ok (c7post, c7evs) ∧
    (if (c7post.IR &&& 0xf000) >>> 12 = 1 ∨ (c7post.IR &&& 0xf000) >>> 12 = 5 ∨
        (c7post.IR &&& 0xf000) >>> 12 = 9 ∨ (c7post.IR &&& 0xf000) >>> 12 = 2 ∨
        (c7post.IR &&& 0xf000) >>> 12 = 10 ∨ (c7post.IR &&& 0xf000) >>> 12 = 6 ∨
        (c7post.IR &&& 0xf000) >>> 12 = 14
     then c7post.CC = setcc (c7post.registers ((c7post.IR >>> 9) &&& 7))
     else c7post.CC = c7pre.CC) :=
  ⟨rfl, cc_discipline c7pre 0 c7post c7evs rfl⟩

/-- C9 counterexample: a RUNNING-to-HALTED transition whose STI computed
target address (`memory[0x4001] = 0x4001`, a self-pointing cell) is not the
MCR address, refuting the claim that the transition occurs only via an STI
whose computed target equals MCR: the machine halts because the store put
R0 = 0xFFFE into the pointer cell and the halting check re-reads it. -/
theorem halt_without_mcr_target :
    c9x.isHalted = false ∧
    c9x.memory 0x4001 = 0x4001 ∧ (0x4001 : Nat) < 0xFFFE ∧
    stepHalted c9x 0 = some true :=
  ⟨rfl, rfl, by decide, by decide⟩

/-- C9 (amended): `isHalted` is monotonic under a successful step, and the
only false-to-true transition comes from an STI (opcode 11) for which the
pointer cell `memory[PC + offset9]` re-read after the store holds MCR — the
source `stiHaltCheck` condition, which coincides with "target address
equals MCR" except when the store overwrites the pointer cell itself. -/
theorem halt_monotonic (s : LC3) (input : Nat) (s1 : LC3) (evs1 : List ConsoleEv)
    (h : execute_next s input = Except.ok (s1, evs1)) :
    (s.isHalted = true → s1.isHalted = true) ∧
    (s1.isHalted = true → s.isHalted = true ∨
      ((s1.IR &&& 0xf000) >>> 12 = 11 ∧ stiHaltCheck (fetched s) = true)) := by
  obtain ⟨t2, evs2, hd, h1, h2⟩ := execute_next_ok h
  subst h1
  have hi := dispatchOn_inv hd
  dsimp only
  constructor
  · intro hs
    rcases hi.2.1 with he | ⟨ht, _, _⟩
    · rw [he]; exact hs
    · exact ht
  · intro h1
    rcases hi.2.1 with he | ⟨ht, hop, hch⟩
    · left
      rw [he] at h1
      exact h1
    · right
      refine ⟨?_, hch⟩
      rw [hi.1]
      exact hop

theorem halt_monotonic_witness :
    execute_next c9pre 0 = Except.ok (c9post, c9evs) ∧
    ((c9pre.isHalted = true → c9post.isHalted = true) ∧
     (c9post.isHalted = true → c9pre.isHalted = true ∨
       ((c9post.IR &&& 0xf000) >>> 12 = 11 ∧ stiHaltCheck (fetched c9pre) = true))) ∧
    c9post.isHalted = true :=
  ⟨rfl, halt_monotonic c9pre 0 c9post c9evs rfl, by decide⟩

lemma coe_u16 (x : Int) : ((u16 x : Nat) : Int) = x % 65536 := by
  unfold u16
  rw [Int.toNat_of_nonneg (Int.emod_nonneg x (by norm_num))]

lemma u16_add_emod (a x : Int) : u16 (a + x % 65536) = u16 (a + x) := by
  unfold u16
  have hmod : (a + x % 65536) % 65536 = (a + x) % 65536 := by omega
  rw [hmod]

/-- C2 counterexample: the claim says STI sets `isHalted` exactly when the
computed target address `addr = memory[PC + offset9]` equals MCR (0xFFFE).
Here `addr = 0x3001`, which is not MCR, yet the machine halts: the store
overwrote the pointer cell with R0 = 0xFFFE and the code halting check
re-reads that cell after the store. -/
theorem sti_halt_on_aliased_store :
    c2t.isHalted = false ∧
    c2t.memory 0x3001 = 0x3001 ∧ (0x3001 : Nat) < 0xFFFE ∧
    stiHalted c2t = some true :=
  ⟨rfl, rfl, by decide, by decide⟩

/-- C2 (amended): for a post-fetch state whose `int`-typed pointer index
`PC + offset9` is in range and whose pointer cell and source register hold
16-bit values, STI writes the source register `[11:9]` through the pointer
cell unconditionally (even when the target is MCR), and sets `isHalted`
exactly when the value of the pointer cell after the store — the stored
register if the store target aliases the pointer cell, the target address
otherwise — equals MCR; otherwise `isHalted` is left unchanged. -/
theorem sti_semantics (t : LC3)
    (hi : 0 ≤ (t.PC : Int) + sext9 t.IR ∧ (t.PC : Int) + sext9 t.IR < 65536)
    (ha : t.memory ((t.PC : Int) + sext9 t.IR).toNat < 65536)
    (hr : t.registers ((t.IR >>> 9) &&& 7) < 65536) :
    execSTI t = Except.ok
      ({ t with
         memory := fun j => if j = t.memory ((t.PC : Int) + sext9 t.IR).toNat
           then t.registers ((t.IR >>> 9) &&& 7) else t.memory j,
         isHalted := if (if ((t.PC : Int) + sext9 t.IR).toNat =
               t.memory ((t.PC : Int) + sext9 t.IR).toNat
             then t.registers ((t.IR >>> 9) &&& 7)
             else t.memory ((t.PC : Int) + sext9 t.IR).toNat) = MCR
           then true else t.isHalted }, []) := by
  unfold execSTI
  rw [regRead_and7]
  simp only [bindE_ok]
  rw [memRead_in _ _ hi]
  simp only [bindE_ok]
  rw [memWrite_lt _ _ _ ha]
  simp only [bindE_ok]
  rw [memRead_in _ _ hi]
  simp only [bindE_ok]
  simp only [u16_lt _ hr]

theorem sti_semantics_witness :
    execSTI w2t = Except.ok
      ({ w2t with
         memory := fun j => if j = w2t.memory ((w2t.PC : Int) + sext9 w2t.IR).toNat
           then w2t.registers ((w2t.IR >>> 9) &&& 7) else w2t.memory j,
         isHalted := if (if ((w2t.PC : Int) + sext9 w2t.IR).toNat =
               w2t.memory ((w2t.PC : Int) + sext9 w2t.IR).toNat
             then w2t.registers ((w2t.IR >>> 9) &&& 7)
             else w2t.memory ((w2t.PC : Int) + sext9 w2t.IR).toNat) = MCR
           then true else w2t.isHalted }, []) ∧
    stiHalted w2t = some true ∧
    (match execSTI w2t with
     | Except.ok p => some (p.1.memory 0xFFFE)
     | Except.error _ => none) = some 0x1234 :=
  ⟨sti_semantics w2t (by decide) (by decide) (by decide), by decide, by decide⟩

/-- C3 counterexample: the claim reads IR 0x1042 as immediate mode with
imm5 = 2, predicting R0 = 7.  But bit 5 of 0x1042 is clear, so it is
register mode (SR2 = R2): from R1 = 5 and R2 = 0 the code stores R0 = 5,
not 7. -/
theorem add_0x1042_register_mode :
    c3x.registers 1 = 5 ∧ c3x.memory 0x3000 = 0x1042 ∧
    c3x.memory 0x3000 &&& 0x20 = 0 ∧
    stepReg c3x 0 0 = some 5 ∧ (5 : Nat) < 7 :=
  ⟨rfl, rfl, by decide, by decide, by decide⟩

/-- C3 (amended): executing ADD stores into DR `[11:9]` the 16-bit
truncation of SR1 `[8:6]` plus operand2, where operand2 is the sign-extended
5-bit immediate `[4:0]` when bit 5 of IR is set and the register selected by
`[2:0]` otherwise, and sets CC from the stored value.  (The claim example
encoding is wrong: 0x1042 is register mode; the immediate-mode encoding of
ADD R0, R1 with imm5 = 2 is 0x1062, which from R1 = 5 yields R0 = 7 and CC = P.) -/
theorem add_semantics (s : LC3) (input : Nat)
    (hPC : s.PC < 65536) (hIR : s.memory s.PC < 65536)
    (hop : (s.memory s.PC &&& 0xf000) >>> 12 = 1) :
    stepReg s input ((s.memory s.PC >>> 9) &&& 7) =
      some (u16 ((s.registers ((s.memory s.PC >>> 6) &&& 7) : Int) +
        (if s.memory s.PC &&& 0x20 ≠ 0 then specSext 5 (s.memory s.PC &&& 0x1f)
         else (s.registers (s.memory s.PC &&& 7) : Nat)))) ∧
    stepCC s input =
      some (setcc (u16 ((s.registers ((s.memory s.PC >>> 6) &&& 7) : Int) +
        (if s.memory s.PC &&& 0x20 ≠ 0 then specSext 5 (s.memory s.PC &&& 0x1f)
         else (s.registers (s.memory s.PC &&& 7) : Nat))))) := by
  have hIR2 : (fetched s).IR = s.memory s.PC := by
    simp [fetched, Nat.mod_eq_of_lt hIR]
  have hRegs : (fetched s).registers = s.registers := rfl
  have hE := execute_next_opcode s input hPC
  rw [show dispatch (fetched s) input = execADDAND (fetched s) 1 from by
      unfold dispatch
      rw [hIR2, hop]
      norm_num [dispatchOn]] at hE
  rw [execADDAND_eq] at hE
  simp only [bindE_ok] at hE
  rw [devicePost_eq] at hE
  have hval : u16 (addandVal (fetched s) 1) =
      u16 ((s.registers ((s.memory s.PC >>> 6) &&& 7) : Int) +
        (if s.memory s.PC &&& 0x20 ≠ 0 then specSext 5 (s.memory s.PC &&& 0x1f)
         else (s.registers (s.memory s.PC &&& 7) : Nat))) := by
    unfold addandVal addandSR2
    rw [hIR2, hRegs, if_pos (show (1 : Nat) = 1 from rfl)]
    by_cases hb : s.memory s.PC &&& 0x20 ≠ 0
    · rw [if_pos hb, if_pos hb, imm5_eq, coe_u16, u16_add_emod]
    · rw [if_neg hb, if_neg hb]
  constructor
  · unfold stepReg
    rw [hE]
    simp [hIR2, hval]
  · unfold stepCC
    rw [hE]
    simp [hIR2, hval]

theorem add_semantics_witness :
    stepReg c3w 0 0 = some 7 ∧ stepCC c3w 0 = some 80 :=
  ⟨(add_semantics c3w 0 (by decide) (by decide) (by decide)).1.trans (by decide),
   (add_semantics c3w 0 (by decide) (by decide) (by decide)).2.trans (by decide)⟩

/-- C4: executing LDI (with the pointer index in range and 16-bit memory
values) loads DR from exactly one blocking console read when the pointer
cell `memory[PC + offset9]` holds the KBDR address — the console is switched
to blocking, read once, and switched back to non-blocking, and the backing
memory cell is not consulted (DR is `input % 2^16` whatever memory holds) —
and loads `memory[memory[PC + offset9]]` otherwise; in both cases CC is set
from the loaded value. -/
theorem ldi_semantics (s : LC3) (input : Nat)
    (hPC : s.PC < 65536) (hIR : s.memory s.PC < 65536)
    (hop : (s.memory s.PC &&& 0xf000) >>> 12 = 10)
    (hi : 0 ≤ (((s.PC + 1) % 65536 : Nat) : Int) + sext9 (s.memory s.PC) ∧
          (((s.PC + 1) % 65536 : Nat) : Int) + sext9 (s.memory s.PC) < 65536)
    (ha : s.memory ((((s.PC + 1) % 65536 : Nat) : Int) + sext9 (s.memory s.PC)).toNat
            < 65536)
    (hv : s.memory (s.memory
            ((((s.PC + 1) % 65536 : Nat) : Int) + sext9 (s.memory s.PC)).toNat)
            < 65536) :
    stepReg s input ((s.memory s.PC >>> 9) &&& 7) =
      some (if s.memory ((((s.PC + 1) % 65536 : Nat) : Int) +
              sext9 (s.memory s.PC)).toNat = KBDR
        then input % 65536
        else s.memory (s.memory ((((s.PC + 1) % 65536 : Nat) : Int) +
               sext9 (s.memory s.PC)).toNat)) ∧
    stepCC s input =
      some (setcc (if s.memory ((((s.PC + 1) % 65536 : Nat) : Int) +
              sext9 (s.memory s.PC)).toNat = KBDR
        then input % 65536
        else s.memory (s.memory ((((s.PC + 1) % 65536 : Nat) : Int) +
               sext9 (s.memory s.PC)).toNat))) ∧
    stepEvents s input =
      some ((if s.memory ((((s.PC + 1) % 65536 : Nat) : Int) +
               sext9 (s.memory s.PC)).toNat = KBDR
        then [ConsoleEv.setBlocking true, ConsoleEv.readCh, ConsoleEv.setBlocking false]
        else []) ++ postEvs s.memory) := by
  have hIR2 : (fetched s).IR = s.memory s.PC := by
    simp [fetched, Nat.mod_eq_of_lt hIR]
  have hPC2 : (fetched s).PC = (s.PC + 1) % 65536 := rfl
  have hMem2 : (fetched s).memory = s.memory := rfl
  have hE := execute_next_opcode s input hPC
  rw [show dispatch (fetched s) input = execLDI (fetched s) input from by
      unfold dispatch
      rw [hIR2, hop]
      norm_num [dispatchOn]] at hE
  unfold execLDI at hE
  rw [hIR2, hPC2, hMem2] at hE
  rw [memRead_in _ _ hi] at hE
  simp only [bindE_ok] at hE
  by_cases hk : s.memory ((((s.PC + 1) % 65536 : Nat) : Int) +
      sext9 (s.memory s.PC)).toNat = KBDR
  · rw [if_pos hk] at hE
    rw [writeReg_setcc_and7] at hE
    simp only [bindE_ok] at hE
    rw [devicePost_eq] at hE
    refine ⟨?_, ?_, ?_⟩
    · unfold stepReg
      rw [hE, if_pos hk]
      dsimp only
      rw [if_pos rfl, u16_coe]
    · unfold stepCC
      rw [hE, if_pos hk]
      dsimp only
      rw [u16_coe]
    · unfold stepEvents
      rw [hE, if_pos hk]
  · rw [if_neg hk] at hE
    rw [memRead_lt _ _ ha] at hE
    simp only [bindE_ok] at hE
    rw [writeReg_setcc_and7] at hE
    simp only [bindE_ok] at hE
    rw [devicePost_eq] at hE
    refine ⟨?_, ?_, ?_⟩
    · unfold stepReg
      rw [hE, if_neg hk]
      dsimp only
      rw [if_pos rfl, u16_lt _ hv]
    · unfold stepCC
      rw [hE, if_neg hk]
      dsimp only
      rw [u16_lt _ hv]
    · unfold stepEvents
      rw [hE, if_neg hk]

theorem ldi_semantics_witness :
    stepReg c4pre 0x41 0 = some 0x41 ∧
    stepCC c4pre 0x41 = some 80 ∧
    stepEvents c4pre 0x41 =
      some [ConsoleEv.setBlocking true, ConsoleEv.readCh, ConsoleEv.setBlocking false] :=
  ⟨(ldi_semantics c4pre 0x41 (by decide) (by decide) (by decide)
      (by decide) (by decide) (by decide)).1.trans (by decide),
   (ldi_semantics c4pre 0x41 (by decide) (by decide) (by decide)
      (by decide) (by decide) (by decide)).2.1.trans (by decide),
   (ldi_semantics c4pre 0x41 (by decide) (by decide) (by decide)
      (by decide) (by decide) (by decide)).2.2.trans (by decide)⟩

/-- C6: executing BR (for a CC that is one of N, Z, P) sets
PC = (post-fetch PC) + sign-extended offset9 exactly when a set condition
bit `n=[11]`, `z=[10]`, `p=[9]` matches the current CC, and otherwise leaves
PC at the fetch-incremented value. -/
theorem br_semantics (s : LC3) (input : Nat)
    (hPC : s.PC < 65536) (hIR : s.memory s.PC < 65536)
    (hop : (s.memory s.PC &&& 0xf000) >>> 12 = 0)
    (hcc : s.CC = 78 ∨ s.CC = 90 ∨ s.CC = 80) :
    stepPC s input = some
      (if ((s.memory s.PC >>> 11) &&& 1 ≠ 0 ∧ s.CC = 78) ∨
          ((s.memory s.PC >>> 10) &&& 1 ≠ 0 ∧ s.CC = 90) ∨
          ((s.memory s.PC >>> 9) &&& 1 ≠ 0 ∧ s.CC = 80)
       then u16 ((((s.PC + 1) % 65536 : Nat) : Int) + sext9 (s.memory s.PC))
       else (s.PC + 1) % 65536) := by
  have hIR2 : (fetched s).IR = s.memory s.PC := by
    simp [fetched, Nat.mod_eq_of_lt hIR]
  have hPC2 : (fetched s).PC = (s.PC + 1) % 65536 := rfl
  have hCC2 : (fetched s).CC = s.CC := rfl
  have hE := execute_next_opcode s input hPC
  rw [show dispatch (fetched s) input = execBR (fetched s) from by
      unfold dispatch
      rw [hIR2, hop]
      norm_num [dispatchOn]] at hE
  rw [execBR_eq] at hE
  simp only [bindE_ok] at hE
  rw [devicePost_eq] at hE
  rw [hIR2, hPC2, hCC2] at hE
  unfold stepPC
  rw [hE]
  dsimp only
  split <;> rfl

theorem br_semantics_witness :
    stepPC c6pre 0 = some 0x2FFF :=
  (br_semantics c6pre 0 (by decide) (by decide) (by decide)
    (Or.inr (Or.inl rfl))).trans (by decide)

end LC3V
